import Mathlib

/-!
Shallow embedding of the telemetry-interpretation core of `myhud.py`
(gpshud): the TPV/SKY state merge (`Main.update_speed`, `Main.update_sky`),
the fix/position text composition (`HeadUpDisplay.update_data`), the compass
helper (`HeadUpDisplay.get_direction_text`) and the day/night classifier
(`HeadUpDisplay.is_day`).

Conventions of the embedding:
* Python floats are modelled as exact rationals (`ℚ`); float formatting
  (`{:.0f}`, `{:.1f}`, `%.0f`) is modelled as exact round-half-to-even on the
  rational value.
* Python dicts (`collections.defaultdict`) are modelled as insertion-ordered
  association lists: assignment to an existing key updates it in place,
  assignment to a fresh key appends it at the end.
* Optional report fields (`'x' in data`) are modelled as `Option` fields.
* The GTK widget tree, Pango markup rendering and the date/time pane
  (lines 115-184 of the source) are external collaborators and are not part
  of the embedded core; the strings computed for the Fix and Position panes
  are embedded verbatim, markup tags included.
-/

namespace Gpshud

/-! ### Decimal rendering of numbers (Python `str`, `format`) -/

/-- The decimal digit character for `n % 10`-style values. -/
def digitChar (n : Nat) : Char := Char.ofNat (48 + n)

/-- Fuel-driven accumulator producing the decimal digits of `n`
(most significant first).  The fuel `n + 1` always suffices. -/
def natDigitsAux : Nat → Nat → List Char → List Char
  | 0, _, acc => acc
  | fuel + 1, n, acc =>
      if n < 10 then digitChar n :: acc
      else natDigitsAux fuel (n / 10) (digitChar (n % 10) :: acc)

/-- Decimal rendering of a natural number, as Python `str(int)`. -/
def natStr (n : Nat) : String := ⟨natDigitsAux (n + 1) n []⟩

/-- Left-pad a string with `'0'` to length `k`. -/
def padZeros (s : String) (k : Nat) : String :=
  ⟨List.replicate (k - s.data.length) '0'⟩ ++ s

/-- Round half to even (banker's rounding), as Python `format`/`round` do on
the exact value. -/
def roundHE (x : ℚ) : ℤ :=
  let f : ℤ := ⌊x⌋
  let r : ℚ := x - (f : ℚ)
  if r < 1 / 2 then f
  else if 1 / 2 < r then f + 1
  else if f % 2 = 0 then f else f + 1

/-- Python's fixed-point float formatting `f'{q:.{prec}f}'` (and `'%.0f' %`),
on the exact rational value. -/
def fmtF (prec : Nat) (q : ℚ) : String :=
  let sign := if q < 0 then "-" else ""
  let m : Nat := (roundHE (|q| * (10 : ℚ) ^ prec)).toNat
  if prec = 0 then sign ++ natStr m
  else sign ++ natStr (m / 10 ^ prec) ++ "." ++ padZeros (natStr (m % 10 ^ prec)) prec

/-- Fuel-driven integer square root by the divide-by-four recurrence
(`⌊√n⌋ = 2⌊√(n/4)⌋` possibly plus one).  Fuel `n + 1` always suffices. -/
def isqrtFuel : Nat → Nat → Nat
  | 0, _ => 0
  | fuel + 1, n =>
      if n < 2 then n
      else
        let r := 2 * isqrtFuel fuel (n / 4)
        if (r + 1) ^ 2 ≤ n then r + 1 else r

/-- `⌊√n⌋` on naturals. -/
def isqrt (n : Nat) : Nat := isqrtFuel (n + 1) n

/-- `⌊√x⌋` for a nonnegative rational: `⌊√(p/q)⌋ = ⌊√(p·q)⌋ / q`. -/
def sqrtFloorQ (x : ℚ) : Nat :=
  isqrt (x.num.toNat * x.den) / x.den

/-- Round half to even of the exact real square root of a nonnegative
rational, decided by integer comparisons: `√x ⋚ f + 1/2  ⟺  4p ⋚ (2f+1)²·q`. -/
def sqrtRoundHE (x : ℚ) : Nat :=
  let f := sqrtFloorQ x
  let l := 4 * x.num.toNat
  let r := (2 * f + 1) ^ 2 * x.den
  if l < r then f
  else if r < l then f + 1
  else if f % 2 = 0 then f else f + 1

/-- `f'{√v:.1f}'` for a nonnegative rational `v`: one-decimal rendering of the
square root (Python `statistics.stdev` returns the root of the exact sample
variance). -/
def fmtSqrt1 (v : ℚ) : String :=
  let n := sqrtRoundHE (100 * v)
  natStr (n / 10) ++ "." ++ natStr (n % 10)

/-- Number of decimal digits of `n`. -/
def numDigits (n : Nat) : Nat := (natStr n).data.length

/-- Decimal exponent `e` of a nonzero rational: `10^e ≤ |x| < 10^(e+1)`. -/
def decExpQ (x : ℚ) : ℤ :=
  let e0 : ℤ := (numDigits x.num.natAbs : ℤ) - (numDigits x.den : ℤ)
  if (10 : ℚ) ^ e0 ≤ |x| then
    (if (10 : ℚ) ^ (e0 + 1) ≤ |x| then e0 + 1 else e0)
  else e0 - 1

/-- Exponent suffix of Python's general float format (`e+07`, `e-05`). -/
def expStr (e : ℤ) : String :=
  if e < 0 then "e-" ++ padZeros (natStr (-e).toNat) 2
  else "e+" ++ padZeros (natStr e.toNat) 2

/-- Model of CPython's format spec `#.5n` used for the altitude: five
significant digits, general form, trailing zeros and decimal point kept
(`#`); the process runs in the default C locale, so `n` adds no digit
grouping. -/
def fmtN5 (q : ℚ) : String :=
  if q = 0 then "0.0000"
  else
    let sign := if q < 0 then "-" else ""
    let e1 := decExpQ q
    let m1 := roundHE (|q| * (10 : ℚ) ^ ((4 : ℤ) - e1))
    let e := if m1 = 100000 then e1 + 1 else e1
    let m : ℤ := if m1 = 100000 then 10000 else m1
    let ds := natStr m.toNat
    if e < -4 ∨ 5 ≤ e then
      sign ++ ⟨ds.data.take 1⟩ ++ "." ++ ⟨ds.data.drop 1⟩ ++ expStr e
    else if 0 ≤ e then
      sign ++ ⟨ds.data.take (e.toNat + 1)⟩ ++ "." ++ ⟨ds.data.drop (e.toNat + 1)⟩
    else
      sign ++ "0." ++ ⟨List.replicate (-(e + 1)).toNat '0'⟩ ++ ds

/-! ### Small list helpers (Python builtins) -/

/-- Python `min` over a nonempty iterable (0 as junk value on `[]`, which the
source never evaluates: the call sites are guarded by non-emptiness). -/
def listMin : List ℚ → ℚ
  | [] => 0
  | x :: xs => xs.foldl min x

/-- Python `max` over a nonempty iterable (see `listMin`). -/
def listMax : List ℚ → ℚ
  | [] => 0
  | x :: xs => xs.foldl max x

/-- `statistics.fmean`: arithmetic mean, `sum / n`. -/
def fmean (l : List ℚ) : ℚ := l.foldl (· + ·) 0 / (l.length : ℚ)

/-- Exact sample variance `Σ(x - x̄)² / (n - 1)`; `statistics.stdev` is its
square root.  Evaluated by the source only under the guard `len > 1`. -/
def svar (l : List ℚ) : ℚ :=
  let m := fmean l
  l.foldl (fun a x => a + (x - m) ^ 2) 0 / ((l.length : ℚ) - 1)

/-- Python `' '.join`. -/
def joinSpace : List String → String
  | [] => ""
  | [x] => x
  | x :: xs => x ++ " " ++ joinSpace xs

/-- `needle` occurs as a contiguous run inside `hay` (Python `in` on str),
char-list level. -/
def containsSub (needle : List Char) : List Char → Bool
  | [] => needle.isEmpty
  | c :: rest => needle.isPrefixOf (c :: rest) || containsSub needle rest

/-- `needle` occurs as a substring of `hay` (Python `needle in hay`). -/
def strContains (hay needle : String) : Bool := containsSub needle.data hay.data

/-! ### Insertion-ordered dictionaries (Python `dict` / `defaultdict`) -/

/-- `d[k] = v`: update in place when the key exists, else append at the end
(Python dicts preserve insertion order). -/
def dictSet {α : Type} : List (Nat × α) → Nat → α → List (Nat × α)
  | [], k, v => [(k, v)]
  | (k', v') :: rest, k, v =>
      if k' = k then (k, v) :: rest else (k', v') :: dictSet rest k v

/-- `d.get(k)`. -/
def dictLookup {α : Type} : List (Nat × α) → Nat → Option α
  | [], _ => none
  | (k', v') :: rest, k => if k' = k then some v' else dictLookup rest k

/-- `d[k]` of a `defaultdict` read: the stored value, or the default. -/
def dictGetD {α : Type} (l : List (Nat × α)) (k : Nat) (d : α) : α :=
  (dictLookup l k).getD d

/-- `d[k] += v` on a `defaultdict(int)`: a missing key is materialised with
default `0` (so it is appended even when `v = 0`). -/
def dictAdd (l : List (Nat × Nat)) (k : Nat) (v : Nat) : List (Nat × Nat) :=
  dictSet l k (dictGetD l k 0 + v)

/-! ### Data model (source lines 105-113 and the gpsd report shapes) -/

/-- A TPV report as consumed by `Main.update_speed`: `mode` is always present,
every other field is optional (`'x' in data`). -/
structure TPVReport where
  mode : Nat
  status : Option Nat
  speed : Option ℚ
  track : Option ℚ
  lat : Option ℚ
  lon : Option ℚ
  altHAE : Option ℚ
  eph : Option ℚ
  epv : Option ℚ
  deriving DecidableEq

/-- One element of a SKY report's `satellites` list. -/
structure SatEntry where
  gnssid : Option Nat
  PRN : Nat
  used : Bool
  ss : Option ℚ
  deriving DecidableEq

/-- A SKY report as consumed by `Main.update_sky` / `update_data`. -/
structure SkyReport where
  uSat : Option Nat
  nSat : Option Nat
  satellites : List SatEntry
  deriving DecidableEq

/-- The mutable telemetry state of `HeadUpDisplay` (lines 91-113): unit
configuration plus the incrementally merged fix attributes. -/
structure HudState where
  speed_unit : String
  speedfactor : ℚ
  altitude_unit : String
  altfactor : ℚ
  last_speed : ℚ
  last_heading : ℚ
  last_mode : Nat
  last_status : Nat
  latitude : Option ℚ
  longitude : Option ℚ
  altitude : Option ℚ
  skyview : Option SkyReport
  last_tpv : Option TPVReport
  deriving DecidableEq

/-- Conversion constants of the `gps` client library (exact rationals). -/
def MPS_TO_MPH : ℚ := 3600000 / 1609344

/-- `gps.MPS_TO_KPH`. -/
def MPS_TO_KPH : ℚ := 36 / 10

/-- `gps.MPS_TO_KNOTS`. -/
def MPS_TO_KNOTS : ℚ := 3600 / 1852

/-- `gps.METERS_TO_FEET`. -/
def METERS_TO_FEET : ℚ := 10000 / 3048

/-- The state right after `HeadUpDisplay.__init__` with the default units
(`mph`, `ft`): numeric fields zero, optional fields unknown. -/
def initHud : HudState :=
  { speed_unit := "mph", speedfactor := MPS_TO_MPH
    altitude_unit := "ft", altfactor := METERS_TO_FEET
    last_speed := 0, last_heading := 0, last_mode := 0, last_status := 0
    latitude := none, longitude := none, altitude := none
    skyview := none, last_tpv := none }

/-! ### Satellite aggregation (`update_data`, lines 200-216) -/

/-- The four accumulators of the satellite loop. -/
structure Agg where
  ucount : List (Nat × Nat)
  ncount : List (Nat × Nat)
  sigstrength : List (Nat × ℚ)
  usedsigstrength : List (Nat × ℚ)
  deriving DecidableEq

/-- One iteration of `for sat in self.skyview.satellites` (lines 207-215):
entries without `gnssid` are skipped entirely; `ss` is recorded under the
PRN always, and additionally in `usedsigstrength` when `used` is true. -/
def aggStep (a : Agg) (sat : SatEntry) : Agg :=
  match sat.gnssid with
  | none => a
  | some g =>
      let a1 : Agg :=
        { a with
          ucount := dictAdd a.ucount g (if sat.used then 1 else 0)
          ncount := dictAdd a.ncount g 1 }
      match sat.ss with
      | none => a1
      | some v =>
          let a2 : Agg := { a1 with sigstrength := dictSet a1.sigstrength sat.PRN v }
          if sat.used then
            { a2 with usedsigstrength := dictSet a2.usedsigstrength sat.PRN v }
          else a2

/-- The whole satellite loop, starting from empty `defaultdict`s. -/
def aggregate (sats : List SatEntry) : Agg := sats.foldl aggStep ⟨[], [], [], []⟩

/-- The `sigstrength` mapping (PRN ↦ ss) the loop builds. -/
def all_snr (sats : List SatEntry) : List (Nat × ℚ) := (aggregate sats).sigstrength

/-- The `usedsigstrength` mapping (PRN ↦ ss, used satellites only). -/
def used_snr (sats : List SatEntry) : List (Nat × ℚ) := (aggregate sats).usedsigstrength

/-! ### Fix/position text composition (`update_data`, lines 186-261) -/

/-- `chr(0x1f1e6 + ord(x) - ord('A'))` over a two-letter ISO code
(source line 53). -/
def regionalChars (a b : Char) : String :=
  ⟨[Char.ofNat (0x1F1E6 + a.toNat - 65), Char.ofNat (0x1F1E6 + b.toNat - 65)]⟩

/-- `GNSS_FLAG` (lines 44-56): constellation id ↦ flag glyph, `\N{SATELLITE}`
for SBAS (id 1).  Python raises `KeyError` outside `{0,…,6}`; gpsd only emits
ids in that range, and the model totalises with the empty string. -/
def GNSS_FLAG : Nat → String
  | 0 => regionalChars ('U') ('S')
  | 1 => ⟨[Char.ofNat 0x1F6F0]⟩
  | 2 => regionalChars ('E') ('U')
  | 3 => regionalChars ('C') ('N')
  | 4 => regionalChars ('I') ('N')
  | 5 => regionalChars ('J') ('P')
  | 6 => regionalChars ('R') ('U')
  | _ => ""

/-- The status narrative tuple of lines 187-189. -/
def statusTable : List String :=
  ["Unknown", "Normal", "DGPS", "RTK Fixed", "RTK Floating", "DR", "GNSS+DR",
   "Time (surveyed)", "Simulated", "P(Y)"]

/-- Lines 186-198: status narrative (only when `status` is truthy), then the
mode branch.  Python would raise `IndexError` for a status above 9; gpsd's
status values are 0-9 and the model totalises the tuple lookup with "". -/
def fixtext1 (s : HudState) : String :=
  let t := if s.last_status ≠ 0 then statusTable.getD s.last_status ("") else ""
  if s.last_mode = 2 ∨ s.last_mode = 3 then
    t ++ " " ++ natStr s.last_mode ++ "D fix"
  else if s.last_mode = 1 then "No fix"
  else "Unknown fix"

/-- `f'{ucount[gnss]} {GNSS_FLAG[gnss]}'` (line 219). -/
def svEntry (p : Nat × Nat) : String := natStr p.2 ++ " " ++ GNSS_FLAG p.1

/-- Lines 219-222: the per-constellation breakdown line, emitted only when
some constellation has a positive used-count. -/
def svSeg (ucount : List (Nat × Nat)) : String :=
  let svlist := (ucount.filter (fun p => 0 < p.2)).map svEntry
  match svlist with
  | [] => ""
  | _ => "\n<span font=\"12\">" ++ joinSpace svlist ++ "</span>"

/-- `\U0001D465̅` (italic x with overline, the mean). -/
def xbarGlyph : String := ⟨[Char.ofNat 0x1D465, Char.ofNat 0x305]⟩

/-- `\U0001D460` (italic s, the sample standard deviation). -/
def sGlyph : String := ⟨[Char.ofNat 0x1D460]⟩

/-- Lines 227-230 / 236-239: the mean/stdev suffix, appended only when the
sample count exceeds one (otherwise `statistics.stdev` would raise). -/
def snrStats (strengths : List ℚ) : String :=
  if 1 < strengths.length then
    ", " ++ xbarGlyph ++ "=" ++ fmtF 1 (fmean strengths) ++ ", " ++ sGlyph ++ "=" ++
      fmtSqrt1 (svar strengths)
  else ""

/-- Lines 223-231 (label `All`) and 232-240 (label `Used`): the SNR line for
one sample dictionary; empty when the dictionary is empty. -/
def snrSeg (label : String) (d : List (Nat × ℚ)) : String :=
  match d with
  | [] => ""
  | _ =>
      let strengths := d.map Prod.snd
      "\n<span font=\"10\">" ++ label ++ " SNR: " ++ fmtF 0 (listMin strengths) ++ "–" ++
        fmtF 0 (listMax strengths) ++ snrStats strengths ++ "</span>"

/-- Lines 200-240: the whole satellite block of the fix text, entered only
when a skyview is present and carries both `uSat` and `nSat`. -/
def skySeg (s : HudState) : String :=
  match s.skyview with
  | none => ""
  | some sky =>
      match sky.uSat, sky.nSat with
      | some u, some n =>
          let a := aggregate sky.satellites
          ", " ++ natStr u ++ "/" ++ natStr n ++ " SVs" ++
            svSeg a.ucount ++ snrSeg ("All") a.sigstrength ++ snrSeg ("Used") a.usedsigstrength
      | _, _ => ""

/-- Lines 246-248: the CEP line, appended to the fix text only inside the
`latitude is not None and longitude is not None` block. -/
def cepSeg (s : HudState) : String :=
  match s.latitude, s.longitude with
  | some _, some _ =>
      match s.last_tpv with
      | some tpv =>
          match tpv.eph with
          | some e => "\nCEP: ± " ++ fmtF 1 (e * s.altfactor) ++ " " ++ s.altitude_unit
          | none => ""
      | none => ""
  | _, _ => ""

/-- The full `fixtext` handed to the Fix pane (lines 186-248). -/
def mkFixtext (s : HudState) : String := fixtext1 s ++ skySeg s ++ cepSeg s

/-- `format_latitude` (lines 59-61). -/
def format_latitude (latitude : ℚ) : String :=
  let hemisphere := if 0 ≤ latitude then "N" else "S"
  fmtF 5 |latitude| ++ "° " ++ hemisphere

/-- `format_longitude` (lines 64-66). -/
def format_longitude (longitude : ℚ) : String :=
  let hemisphere := if 0 ≤ longitude then "E" else "W"
  fmtF 5 |longitude| ++ "° " ++ hemisphere

/-- Lines 250-256: the altitude line of the position text (with the vertical
error suffix when the last TPV carries `epv`). -/
def altLine (s : HudState) (a : ℚ) : String :=
  let alt := a * s.altfactor
  match s.last_tpv with
  | some tpv =>
      match tpv.epv with
      | some pe =>
          "\n" ++ fmtN5 alt ++ " ± " ++ fmtF 1 (pe * s.altfactor) ++ " " ++
            s.altitude_unit
      | none => "\n" ++ fmtN5 alt ++ " " ++ s.altitude_unit
  | none => "\n" ++ fmtN5 alt ++ " " ++ s.altitude_unit

/-- Lines 242-256: the position text; coordinates only when both are known,
altitude line only when `self.altitude` is truthy (`None` and `0.0` are both
falsy in Python). -/
def mkPostext (s : HudState) : String :=
  match s.latitude, s.longitude with
  | some lat, some lon =>
      let p := format_latitude lat ++ "\n" ++ format_longitude lon
      match s.altitude with
      | some a => if a ≠ 0 then p ++ altLine s a else p
      | none => p
  | _, _ => ""

/-! ### Direction and speed text (lines 264-276) -/

/-- The 9-entry wrap-around compass tuple of line 274-275. -/
def compass9 : List String := ["N", "NE", "E", "SE", "S", "SW", "W", "NW", "N"]

/-- Lines 270-276: `int((heading+22.5)//45)` indexes `compass9`.  Python
raises `IndexError` above 382.5° and wraps below -22.5°; headings live in
[0, 360) and the model totalises with "". -/
def get_direction_text (s : HudState) (heading : ℚ) : String :=
  if s.last_mode = 0 ∨ s.last_mode = 1 then "-"
  else compass9.getD (⌊(heading + 45 / 2) / 45⌋).toNat ("")

/-- Lines 264-268. -/
def get_speed_text (s : HudState) (speed : ℚ) : String :=
  if s.last_mode = 0 ∨ s.last_mode = 1 then "-"
  else fmtF 0 (speed * s.speedfactor)

/-! ### Day/night classification (`is_day`, lines 278-296)

The astral library is an external collaborator; its solar computations are
modelled as an oracle.  The dynamic typing of the buggy call site
`astral.sun.elevation(noon)` is modelled explicitly: `elevation`'s first
parameter is the observer, and handing it a datetime raises
`AttributeError` when the function reads `observer.latitude`. -/

/-- Python exception kinds relevant to `is_day`. -/
inductive PyErr where
  | valueError
  | attributeError
  deriving DecidableEq

/-- A dynamically-typed Python value at the `elevation` call site. -/
inductive PyVal where
  | observer (latitude longitude : ℚ)
  | datetime (t : ℚ)

/-- The astral solar computations, abstracted: `daylightFn lat lon tz date`
returns the (sunrise, sunset) instants, or `none` when astral raises
`ValueError` (sun never rises/sets there that day); `noonFn` is
`astral.sun.noon`; `elevationFn lat lon t` the solar elevation. -/
structure SolarOracle where
  daylightFn : ℚ → ℚ → ℤ → ℤ → Option (ℚ × ℚ)
  noonFn : ℚ → ℚ → ℤ → ℚ
  elevationFn : ℚ → ℚ → ℚ → ℚ

/-- Line 282-283: `datetime.timezone(datetime.timedelta(hours=(longitude+7.5)//15))`. -/
def solarTz (longitude : ℚ) : ℤ := ⌊(longitude + 15 / 2) / 15⌋

/-- Line 285-286: the date of `datetime.datetime.now(solar_tz)`, with instants
modelled as epoch seconds. -/
def localDate (now : ℚ) (tz : ℤ) : ℤ := ⌊(now + 3600 * (tz : ℚ)) / 86400⌋

/-- `astral.sun.elevation(observer, dateandtime=None)`: reads
`observer.latitude`/`observer.longitude` from its first argument; a datetime
has no such attributes, so passing one raises `AttributeError`. -/
def astralElevation (o : SolarOracle) (observer : PyVal) (dateandtime : ℚ) : Except PyErr ℚ :=
  match observer with
  | .observer la lo => .ok (o.elevationFn la lo dateandtime)
  | .datetime _ => .error .attributeError

/-- `HeadUpDisplay.is_day` (lines 278-296).  The `except ValueError` branch is
the `none` case of `daylightFn`; inside it the source calls
`astral.sun.elevation(noon)` — with the noon *datetime* in the observer
position — so `astralElevation` receives a `PyVal.datetime`. -/
def is_day (o : SolarOracle) (s : HudState) (now : ℚ) : Except PyErr Bool :=
  match s.longitude, s.latitude with
  | none, _ => .ok true
  | some _, none => .ok true
  | some lon, some lat =>
      let tz := solarTz lon
      let date := localDate now tz
      match o.daylightFn lat lon tz date with
      | some (sunrise, sunset) => .ok (decide (sunrise ≤ now ∧ now ≤ sunset))
      | none =>
          match astralElevation o (PyVal.datetime (o.noonFn lat lon date)) now with
          | .error e => .error e
          | .ok elev => if elev < 0 then .ok false else .ok true

/-! ### Report dispatch (`Main.update_speed` / `Main.update_sky`) -/

/-- `Main.update_speed` (lines 369-389): stores the whole report in
`last_tpv`, always overwrites `mode`, and copies each further field only when
present in the report. -/
def update_speed (s : HudState) (data : TPVReport) : HudState :=
  let s1 := { s with last_tpv := some data, last_mode := data.mode }
  let s2 := match data.status with | some v => { s1 with last_status := v } | none => s1
  let s3 := match data.speed with | some v => { s2 with last_speed := v } | none => s2
  let s4 := match data.track with | some v => { s3 with last_heading := v } | none => s3
  let s5 := match data.lat with | some v => { s4 with latitude := some v } | none => s4
  let s6 := match data.lon with | some v => { s5 with longitude := some v } | none => s5
  match data.altHAE with | some v => { s6 with altitude := some v } | none => s6

/-- `Main.update_sky` (lines 364-367): replaces the skyview wholesale. -/
def update_sky (s : HudState) (data : SkyReport) : HudState :=
  { s with skyview := some data }

/-- The horizontal error estimate the display knows: `update_data` reads it
from the stored `last_tpv` (line 246). -/
def stateEph (s : HudState) : Option ℚ :=
  match s.last_tpv with
  | some tpv => tpv.eph
  | none => none

/-- The vertical error estimate the display knows (line 252). -/
def stateEpv (s : HudState) : Option ℚ :=
  match s.last_tpv with
  | some tpv => tpv.epv
  | none => none

/-- The full recomputation pass triggered after every report (`update_data`,
minus the date/time pane and widget plumbing). -/
structure DisplayModel where
  directionText : String
  speedText : String
  fixText : String
  positionText : String
  day : Bool
  deriving DecidableEq

/-- `HeadUpDisplay.update_data` as a value computation: the day/night
classification (which can raise, see `is_day`) followed by the four derived
texts. -/
def update_data (o : SolarOracle) (s : HudState) (now : ℚ) : Except PyErr DisplayModel :=
  match is_day o s now with
  | .error e => .error e
  | .ok d =>
      .ok { directionText := get_direction_text s s.last_heading
            speedText := get_speed_text s s.last_speed
            fixText := mkFixtext s
            positionText := mkPostext s
            day := d }

/-! ### The fix narrative table as the specification writes it -/

/-- The narrative table of spec §4.3 step 1, keyed 1-9 (index `status - 1`),
with entry 7 amended to the source's `"Time (surveyed)"`. -/
def specStatusTable : List String :=
  ["Normal", "DGPS", "RTK Fixed", "RTK Floating", "DR", "GNSS+DR",
   "Time (surveyed)", "Simulated", "P(Y)"]

/-! ### Concrete fixtures for witnesses and counterexamples -/

/-- A TPV report carrying both error estimates. -/
def cTpvEph : TPVReport :=
  { mode := 3, status := none, speed := none, track := none, lat := none, lon := none
    altHAE := none, eph := some 5, epv := some 7 }

/-- A follow-up TPV report carrying neither error estimate. -/
def cTpvNoEph : TPVReport :=
  { mode := 3, status := none, speed := some 4, track := none, lat := none, lon := none
    altHAE := none, eph := none, epv := none }

/-- A state that has already learned `eph` from `cTpvEph`. -/
def cStateEph : HudState := { initHud with last_tpv := some cTpvEph }

/-- A satellite entry with a signal strength but no `gnssid`. -/
def cSatNoGnss : SatEntry := { gnssid := none, PRN := 7, used := true, ss := some 33 }

/-- A skyview with signal data but no `uSat` count. -/
def cSkyNoUsat : SkyReport :=
  { uSat := none, nSat := some 5
    satellites := [{ gnssid := some 0, PRN := 1, used := true, ss := some 30 }] }

/-- A state holding `cSkyNoUsat`. -/
def cStateNoUsat : HudState := { initHud with skyview := some cSkyNoUsat }

/-- A full SKY report: visibility counts and three satellite entries, two
constellations in use. -/
def cSkyFull : SkyReport :=
  { uSat := some 7, nSat := some 12
    satellites := [{ gnssid := some 0, PRN := 1, used := true, ss := some 30 },
                   { gnssid := some 0, PRN := 2, used := false, ss := some 20 },
                   { gnssid := some 2, PRN := 5, used := true, ss := some 40 }] }

/-- A state holding `cSkyFull`. -/
def cStateSky : HudState := { initHud with skyview := some cSkyFull }

/-- A state with status 7 (surveyed time fix) and a 2D fix. -/
def cState7 : HudState := { initHud with last_status := 7, last_mode := 2 }

/-- A state with status 2 (DGPS) and a 3D fix. -/
def cStateDgps : HudState := { initHud with last_status := 2, last_mode := 3 }

/-- A 3D-fix state with a position (80°N, 0°E). -/
def cStatePos : HudState :=
  { initHud with last_mode := 3, latitude := some 80, longitude := some 0 }

/-- A state with a known position and an altitude of exactly 0.0. -/
def cStateAlt0 : HudState :=
  { initHud with last_mode := 3, latitude := some (67 / 2), longitude := some (-421 / 5)
                 altitude := some 0 }

/-- An oracle for a day with sunrise at 1000 and sunset at 2000 everywhere. -/
def cOracleDay : SolarOracle :=
  { daylightFn := fun _ _ _ _ => some (1000, 2000)
    noonFn := fun _ _ _ => 1500
    elevationFn := fun _ _ _ => 10 }

/-- An oracle in permanent-night condition: `daylight` always raises. -/
def cOraclePolar : SolarOracle :=
  { daylightFn := fun _ _ _ _ => none
    noonFn := fun _ _ _ => 1500
    elevationFn := fun _ _ _ => -5 }

/-!
## Theorems

First a block of shared helper lemmas about the embedded operations, then one
theorem per claim (with its witness or counterexample). -/

/-- C1 (amended): processing a TPV report overwrites the stored fix mode
always, and overwrites each of status, speed, heading, latitude, longitude
and altitude only when that field is present in the report (an absent field
leaves the previous value unchanged); the error estimates eph and epv,
however, are read from the stored last TPV report, which every TPV report
replaces wholesale, so after processing the known eph/epv are exactly the new
report's — a later report lacking them loses the earlier values. -/
theorem c1_tpv_merge (s : HudState) (r : TPVReport) :
    (update_speed s r).last_mode = r.mode
    ∧ (∀ v, r.status = some v → (update_speed s r).last_status = v)
    ∧ (r.status = none → (update_speed s r).last_status = s.last_status)
    ∧ (∀ v, r.speed = some v → (update_speed s r).last_speed = v)
    ∧ (r.speed = none → (update_speed s r).last_speed = s.last_speed)
    ∧ (∀ v, r.track = some v → (update_speed s r).last_heading = v)
    ∧ (r.track = none → (update_speed s r).last_heading = s.last_heading)
    ∧ (∀ v, r.lat = some v → (update_speed s r).latitude = some v)
    ∧ (r.lat = none → (update_speed s r).latitude = s.latitude)
    ∧ (∀ v, r.lon = some v → (update_speed s r).longitude = some v)
    ∧ (r.lon = none → (update_speed s r).longitude = s.longitude)
    ∧ (∀ v, r.altHAE = some v → (update_speed s r).altitude = some v)
    ∧ (r.altHAE = none → (update_speed s r).altitude = s.altitude)
    ∧ stateEph (update_speed s r) = r.eph
    ∧ stateEpv (update_speed s r) = r.epv := by
  obtain ⟨mo, st, sp, tr, la, lo, al, ep, ev⟩ := r
  cases st <;> cases sp <;> cases tr <;> cases la <;> cases lo <;> cases al <;>
    simp [update_speed, stateEph, stateEpv]

/-- Witness for C1: a report with only `speed` present updates the speed,
leaves the previous status, and (the corrected part) clears the stored eph. -/
theorem c1_tpv_merge_witness :
    (update_speed cStateEph cTpvNoEph).last_speed = 4
    ∧ (update_speed cStateEph cTpvNoEph).last_status = cStateEph.last_status
    ∧ stateEph (update_speed cStateEph cTpvNoEph) = none :=
  ⟨(c1_tpv_merge cStateEph cTpvNoEph).2.2.2.1 4 rfl,
   (c1_tpv_merge cStateEph cTpvNoEph).2.2.1 rfl,
   ((c1_tpv_merge cStateEph cTpvNoEph).2.2.2.2.2.2.2.2.2.2.2.2.2.1).trans rfl⟩

/-- Counterexample for C1 as stated: `cStateEph` knows `eph = 5`; the
follow-up report `cTpvNoEph` does not carry `eph`, yet after processing it
the previously known `eph` is gone (the claim says an absent field leaves
the previous value unchanged). -/
theorem c1_counterexample :
    cTpvNoEph.eph = none
    ∧ stateEph cStateEph = some 5
    ∧ stateEph (update_speed cStateEph cTpvNoEph) = none :=
  ⟨rfl, rfl, rfl⟩

/-- C4: the claim describes the intended polar fallback (classify from the
noon solar elevation), but the source passes the noon datetime as the
observer argument of `astral.sun.elevation`, so whenever
`astral.sun.daylight` raises `ValueError` (polar day or polar night) the
classifier raises an uncaught `AttributeError` instead of returning a
classification. -/
theorem c4_polar_crash (o : SolarOracle) (s : HudState) (now lat lon : ℚ)
    (hlat : s.latitude = some lat) (hlon : s.longitude = some lon)
    (hpolar : o.daylightFn lat lon (solarTz lon) (localDate now (solarTz lon)) = none) :
    is_day o s now = .error .attributeError := by
  unfold is_day
  rw [hlon, hlat]
  simp [hpolar, astralElevation]

/-- Witness for C4: at 80°N, 0°E under a permanent-night oracle the
classifier evaluates to `AttributeError`. -/
theorem c4_polar_crash_witness :
    is_day cOraclePolar cStatePos 1500 = .error .attributeError :=
  c4_polar_crash cOraclePolar cStatePos 1500 80 0 rfl rfl rfl

/-- C8: with an unknown coordinate the classifier returns Day; otherwise it
uses the solar time-zone offset `⌊(longitude + 7.5)/15⌋` hours and, when
sunrise/sunset exist for the current local date, classifies Day exactly when
the instant lies in the closed interval `[sunrise, sunset]` and Night
otherwise. -/
theorem c8_solar_classifier (o : SolarOracle) (s : HudState) (now : ℚ) :
    ((s.latitude = none ∨ s.longitude = none) → is_day o s now = .ok true)
    ∧ (∀ lat lon sunrise sunset, s.latitude = some lat → s.longitude = some lon →
        o.daylightFn lat lon ⌊(lon + 15 / 2) / 15⌋ (localDate now ⌊(lon + 15 / 2) / 15⌋)
          = some (sunrise, sunset) →
        (is_day o s now = .ok true ↔ (sunrise ≤ now ∧ now ≤ sunset))
        ∧ (is_day o s now = .ok false ↔ ¬(sunrise ≤ now ∧ now ≤ sunset))) := by
  constructor
  · intro h
    rcases hlon : s.longitude with _ | lon <;> rcases hlat : s.latitude with _ | lat <;>
      simp_all [is_day]
  · intro lat lon sunrise sunset hlat hlon hday
    unfold is_day
    rw [hlon, hlat]
    simp only [solarTz] at hday ⊢
    rw [hday]
    constructor
    · simp [decide_eq_true_eq]
    · simp [decide_eq_false_iff_not]

/-- Witness for C8: with sunrise 1000 and sunset 2000, the instant 1500 at a
known position classifies as Day. -/
theorem c8_solar_classifier_witness :
    is_day cOracleDay cStatePos 1500 = .ok true :=
  ((c8_solar_classifier cOracleDay cStatePos 1500).2 80 0 1000 2000 rfl rfl rfl).1.mpr
    ⟨by norm_num, by norm_num⟩

/-- C9: an altitude of exactly 0.0 is falsy in Python, so with a known
position and `altitude = 0.0` the position text is just the two coordinate
lines — no altitude line. -/
theorem c9_zero_altitude (s : HudState) (lat lon : ℚ)
    (hlat : s.latitude = some lat) (hlon : s.longitude = some lon)
    (halt : s.altitude = some 0) :
    mkPostext s = format_latitude lat ++ "\n" ++ format_longitude lon := by
  unfold mkPostext
  rw [hlat, hlon, halt]
  simp

/-- Witness for C9 at a concrete position. -/
theorem c9_zero_altitude_witness :
    mkPostext cStateAlt0 = format_latitude (67 / 2) ++ "\n" ++ format_longitude (-421 / 5) :=
  c9_zero_altitude cStateAlt0 (67 / 2) (-421 / 5) rfl rfl rfl

/-- Counterexample for C5 as stated: the claim's table names entry 7
`"Time(surveyed)"`, but the source tuple holds `"Time (surveyed)"` (with a
space), so at status 7 / mode 2 the fix text does not begin with the claimed
string. -/
theorem c5_counterexample :
    cState7.last_status = 7 ∧ cState7.last_mode = 2
    ∧ fixtext1 cState7 = "Time (surveyed) 2D fix"
    ∧ "Time(surveyed) 2D fix".data.isPrefixOf (fixtext1 cState7).data = false := by
  refine ⟨rfl, rfl, ?_, ?_⟩ <;> decide

/-- C5 (amended): with status 2 and mode 3 the fix text starts with
`"DGPS 3D fix"`; mode 1 gives exactly `"No fix"` whatever the status; mode 0
gives exactly `"Unknown fix"`; and for a nonzero status with mode 2 or 3 the
text is the spec's table entry for that status — entry 7 amended to
`"Time (surveyed)"` — followed by `" {2|3}D fix"`. -/
theorem c5_fix_narrative (s : HudState) (h9 : s.last_status ≤ 9) :
    (s.last_status = 2 ∧ s.last_mode = 3 →
      "DGPS 3D fix".data.isPrefixOf (fixtext1 s).data = true)
    ∧ (s.last_mode = 1 → fixtext1 s = "No fix")
    ∧ (s.last_mode = 0 → fixtext1 s = "Unknown fix")
    ∧ (1 ≤ s.last_status → (s.last_mode = 2 ∨ s.last_mode = 3) →
        fixtext1 s
          = specStatusTable.getD (s.last_status - 1) ("") ++ " " ++
              natStr s.last_mode ++ "D fix") := by
  refine ⟨?_, ?_, ?_, ?_⟩
  · rintro ⟨h2, h3⟩
    simp only [fixtext1, h2, h3]
    decide
  · intro h1
    simp [fixtext1, h1]
  · intro h0
    simp [fixtext1, h0]
  · intro hlo hm
    obtain ⟨su, sf, au, af, lsp, lh, lm, lst, la, lo, alt, sky, tpv⟩ := s
    simp only at hlo h9 hm ⊢
    rcases hm with rfl | rfl <;> interval_cases lst <;> rfl

/-- Witness for C5 at status 2, mode 3. -/
theorem c5_fix_narrative_witness :
    "DGPS 3D fix".data.isPrefixOf (fixtext1 cStateDgps).data = true
    ∧ fixtext1 cStateDgps
        = specStatusTable.getD (cStateDgps.last_status - 1) ("") ++ " " ++
            natStr cStateDgps.last_mode ++ "D fix" :=
  ⟨(c5_fix_narrative cStateDgps (by decide)).1 ⟨rfl, rfl⟩,
   (c5_fix_narrative cStateDgps (by decide)).2.2.2 (by decide) (Or.inr rfl)⟩

/-- C6: for a heading in [0, 360) with a 2D/3D fix, the direction text is the
8-point compass bucket `⌊(heading + 22.5)/45⌋ mod 8` of {N,NE,E,SE,S,SW,W,NW}
(the source's 9-entry wrap-around tuple agrees with the mod-8 bucket on this
range, boundaries classifying upward); with mode 0 or 1 it is `"-"`. -/
theorem c6_compass (s : HudState) (heading : ℚ) (h0 : 0 ≤ heading)
    (h360 : heading < 360) :
    ((s.last_mode = 2 ∨ s.last_mode = 3) →
      get_direction_text s heading
        = ["N", "NE", "E", "SE", "S", "SW", "W", "NW"].getD
            ((⌊(heading + 45 / 2) / 45⌋).toNat % 8) (""))
    ∧ ((s.last_mode = 0 ∨ s.last_mode = 1) → get_direction_text s heading = "-") := by
  constructor
  · intro hm
    have hcond : ¬(s.last_mode = 0 ∨ s.last_mode = 1) := by rcases hm with h | h <;> omega
    unfold get_direction_text
    rw [if_neg hcond]
    have hlo : (0 : ℤ) ≤ ⌊(heading + 45 / 2) / 45⌋ := by
      apply Int.floor_nonneg.mpr
      apply div_nonneg _ (by norm_num)
      linarith
    have hhi : ⌊(heading + 45 / 2) / 45⌋ < 9 := by
      apply Int.floor_lt.mpr
      rw [div_lt_iff₀ (by norm_num : (0 : ℚ) < 45)]
      push_cast
      linarith
    set n := ⌊(heading + 45 / 2) / 45⌋ with hn
    interval_cases n <;> decide
  · intro hm
    simp [get_direction_text, hm]

/-- Witness for C6: the claim's sample headings (0°, 44.9°, 359.9°, and the
exact boundary 67.5°, which classifies upward) with a 3D fix, and a no-fix
state. -/
theorem c6_compass_witness :
    get_direction_text cStatePos 0 = "N"
    ∧ get_direction_text cStatePos (449 / 10) = "NE"
    ∧ get_direction_text cStatePos (3599 / 10) = "N"
    ∧ get_direction_text cStatePos (135 / 2) = "E"
    ∧ get_direction_text initHud (449 / 10) = "-" :=
  ⟨((c6_compass cStatePos 0 (by norm_num) (by norm_num)).1 (Or.inr rfl)).trans
      (by with_unfolding_all rfl),
   ((c6_compass cStatePos (449 / 10) (by norm_num) (by norm_num)).1 (Or.inr rfl)).trans
      (by with_unfolding_all rfl),
   ((c6_compass cStatePos (3599 / 10) (by norm_num) (by norm_num)).1 (Or.inr rfl)).trans
      (by with_unfolding_all rfl),
   ((c6_compass cStatePos (135 / 2) (by norm_num) (by norm_num)).1 (Or.inr rfl)).trans
      (by with_unfolding_all rfl),
   (c6_compass initHud (449 / 10) (by norm_num) (by norm_num)).2 (Or.inl rfl)⟩

/-- C7: the mean/stdev suffix of an SNR line is computed and appended only
when the sample count exceeds one — with at most one sample the suffix is
empty (so the n−1 division of the sample standard deviation is never
attempted), and a singleton sample dictionary yields the min–max line with no
suffix at all; with more than one sample the suffix carries the mean and the
sample standard deviation. -/
theorem c7_snr_singleton (label : String) (p : Nat) (x : ℚ) (strengths : List ℚ) :
    (strengths.length ≤ 1 → snrStats strengths = "")
    ∧ snrSeg label [(p, x)]
        = "\n<span font=\"10\">" ++ label ++ " SNR: " ++ fmtF 0 x ++ "–" ++ fmtF 0 x ++
            "</span>"
    ∧ (1 < strengths.length →
        snrStats strengths
          = ", " ++ xbarGlyph ++ "=" ++ fmtF 1 (fmean strengths) ++ ", " ++ sGlyph ++ "=" ++
              fmtSqrt1 (svar strengths)) := by
  refine ⟨?_, ?_, ?_⟩
  · intro h
    unfold snrStats
    rw [if_neg (by omega)]
  · show "\n<span font=\"10\">" ++ label ++ " SNR: " ++ fmtF 0 x ++ "–" ++ fmtF 0 x ++
        snrStats [x] ++ "</span>" = _
    have h1 : snrStats [x] = "" := by unfold snrStats; rw [if_neg (by simp)]
    rw [h1]
    simp [String.append_assoc]
  · intro h
    unfold snrStats
    rw [if_pos h]

/-- Witness for C7: a singleton SNR dictionary `{1: 30}` yields
`All SNR: 30–30` with no mean/stdev, and its value list has empty stats. -/
theorem c7_snr_singleton_witness :
    snrStats [(30 : ℚ)] = ""
    ∧ snrSeg ("All") [(1, (30 : ℚ))]
        = "\n<span font=\"10\">" ++ "All" ++ " SNR: " ++ fmtF 0 30 ++ "–" ++ fmtF 0 30 ++
            "</span>"
    ∧ snrStats [(30 : ℚ), 20]
        = ", " ++ xbarGlyph ++ "=" ++ fmtF 1 (fmean [30, 20]) ++ ", " ++ sGlyph ++ "=" ++
            fmtSqrt1 (svar [30, 20]) :=
  ⟨(c7_snr_singleton ("All") 1 30 [30]).1 (by decide),
   (c7_snr_singleton ("All") 1 30 [30]).2.1,
   (c7_snr_singleton ("All") 1 30 [(30 : ℚ), 20]).2.2 (by decide)⟩

/-! ### Helper lemmas about substring search -/

theorem containsSub_nil (l : List Char) : containsSub [] l = true := by
  induction l with
  | nil => rfl
  | cons c rest ih => simp [containsSub]

theorem isPrefixOf_append_of_isPrefixOf (n l ys : List Char) (h : n.isPrefixOf l = true) :
    n.isPrefixOf (l ++ ys) = true := by
  rw [List.isPrefixOf_iff_prefix] at h ⊢
  exact h.trans (l.prefix_append ys)

theorem containsSub_append_right (n xs ys : List Char) (h : containsSub n ys = true) :
    containsSub n (xs ++ ys) = true := by
  induction xs with
  | nil => simpa using h
  | cons c rest ih => simp [containsSub, ih]

theorem containsSub_append_left (n xs ys : List Char) (h : containsSub n xs = true) :
    containsSub n (xs ++ ys) = true := by
  induction xs with
  | nil =>
      have hn : n = [] := by simpa [containsSub] using h
      subst hn
      exact containsSub_nil ys
  | cons c rest ih =>
      simp only [containsSub, Bool.or_eq_true] at h
      simp only [List.cons_append, containsSub, Bool.or_eq_true]
      rcases h with h | h
      · exact Or.inl (isPrefixOf_append_of_isPrefixOf _ _ _ h)
      · exact Or.inr (ih h)

theorem containsSub_eq_false_of_head_notMem (c : Char) (n hay : List Char)
    (h : c ∉ hay) : containsSub (c :: n) hay = false := by
  induction hay with
  | nil => rfl
  | cons a rest ih =>
      simp only [List.mem_cons, not_or] at h
      have h1 : (c == a) = false := by simpa using h.1
      simp [containsSub, List.isPrefixOf, h1, ih h.2]

theorem strData_append (a b : String) : (a ++ b).data = a.data ++ b.data := rfl

/-! ### Helper lemmas: decimal renderings contain only digit characters -/

theorem mem_natDigitsAux (fuel : Nat) : ∀ (n : Nat) (acc : List Char) (c : Char),
    c ∈ natDigitsAux fuel n acc → (∃ d, d < 10 ∧ c = digitChar d) ∨ c ∈ acc := by
  induction fuel with
  | zero => intro n acc c h; exact Or.inr h
  | succ f ih =>
      intro n acc c h
      rw [natDigitsAux] at h
      split at h
      · rcases List.mem_cons.mp h with h | h
        · exact Or.inl ⟨n, by omega, h⟩
        · exact Or.inr h
      · rcases ih _ _ _ h with h | h
        · exact Or.inl h
        · rcases List.mem_cons.mp h with h | h
          · exact Or.inl ⟨n % 10, by omega, h⟩
          · exact Or.inr h

theorem natStr_digits (n : Nat) (c : Char) (h : c ∈ (natStr n).data) :
    ∃ d, d < 10 ∧ c = digitChar d := by
  rcases mem_natDigitsAux _ _ _ _ h with h | h
  · exact h
  · simp at h

theorem notC_natStr (n : Nat) : 'C' ∉ (natStr n).data := by
  intro h
  obtain ⟨d, hd, hc⟩ := natStr_digits n _ h
  interval_cases d <;> exact absurd hc (by decide)

theorem notC_padZeros (s : String) (k : Nat) (h : 'C' ∉ s.data) :
    'C' ∉ (padZeros s k).data := by
  unfold padZeros
  rw [strData_append]
  intro hm
  rcases List.mem_append.mp hm with hm | hm
  · exact absurd (List.eq_of_mem_replicate hm) (by decide)
  · exact h hm

theorem notC_append {a b : String} (ha : 'C' ∉ a.data) (hb : 'C' ∉ b.data) :
    'C' ∉ (a ++ b).data := by
  rw [strData_append]
  intro h
  rcases List.mem_append.mp h with h | h
  exacts [ha h, hb h]

theorem notC_sign (q : ℚ) : 'C' ∉ (if q < 0 then "-" else "").data := by
  split <;> decide

theorem notC_fmtF (prec : Nat) (q : ℚ) : 'C' ∉ (fmtF prec q).data := by
  unfold fmtF
  dsimp only
  split
  · exact notC_append (notC_sign q) (notC_natStr _)
  · exact notC_append
      (notC_append (notC_append (notC_sign q) (notC_natStr _)) (by decide))
      (notC_padZeros _ _ (notC_natStr _))

theorem notC_fmtSqrt1 (v : ℚ) : 'C' ∉ (fmtSqrt1 v).data := by
  unfold fmtSqrt1
  exact notC_append (notC_append (notC_natStr _) (by decide)) (notC_natStr _)

theorem notC_GNSS_FLAG (g : Nat) : 'C' ∉ (GNSS_FLAG g).data := by
  match g with
  | 0 => exact by decide
  | 1 => exact by decide
  | 2 => exact by decide
  | 3 => exact by decide
  | 4 => exact by decide
  | 5 => exact by decide
  | 6 => exact by decide
  | (n + 7) => exact by simp [GNSS_FLAG]

theorem notC_svEntry (p : Nat × Nat) : 'C' ∉ (svEntry p).data :=
  notC_append (notC_append (notC_natStr _) (by decide)) (notC_GNSS_FLAG _)

theorem notC_joinSpace : ∀ (l : List String), (∀ x ∈ l, 'C' ∉ x.data) →
    'C' ∉ (joinSpace l).data
  | [], _ => by decide
  | [x], h => by simpa [joinSpace] using h x (by simp)
  | x :: y :: ys, h => by
      show 'C' ∉ (x ++ " " ++ joinSpace (y :: ys)).data
      exact notC_append (notC_append (h x (by simp)) (by decide))
        (notC_joinSpace (y :: ys) (fun z hz => h z (by simp [hz])))

theorem notC_svSeg (ucount : List (Nat × Nat)) : 'C' ∉ (svSeg ucount).data := by
  unfold svSeg
  dsimp only
  split
  · decide
  · refine notC_append (notC_append (by decide) (notC_joinSpace _ ?_)) (by decide)
    intro x hx
    obtain ⟨q, _, rfl⟩ := List.mem_map.mp hx
    exact notC_svEntry q

theorem notC_snrStats (strengths : List ℚ) : 'C' ∉ (snrStats strengths).data := by
  unfold snrStats
  split
  · exact notC_append
      (notC_append
        (notC_append
          (notC_append (notC_append (notC_append (by decide) (by decide)) (notC_fmtF 1 _))
            (by decide))
          (by decide))
        (by decide))
      (notC_fmtSqrt1 _)
  · decide

theorem notC_snrSeg (label : String) (d : List (Nat × ℚ)) (h : 'C' ∉ label.data) :
    'C' ∉ (snrSeg label d).data := by
  unfold snrSeg
  dsimp only
  split
  · decide
  · exact notC_append
      (notC_append
        (notC_append
          (notC_append
            (notC_append (notC_append (notC_append (by decide) h) (by decide))
              (notC_fmtF 0 _))
            (by decide))
          (notC_fmtF 0 _))
        (notC_snrStats _))
      (by decide)

theorem notC_skySeg (s : HudState) : 'C' ∉ (skySeg s).data := by
  unfold skySeg
  split
  · decide
  · split
    · exact notC_append
        (notC_append
          (notC_append
            (notC_append
              (notC_append (notC_append (notC_append (by decide) (notC_natStr _)) (by decide))
                (notC_natStr _))
              (by decide))
            (notC_svSeg _))
          (notC_snrSeg _ _ (by decide)))
        (notC_snrSeg _ _ (by decide))
    · decide

theorem notC_statusText (k : Nat) : 'C' ∉ (statusTable.getD k ("")).data := by
  rcases Nat.lt_or_ge k 10 with hk | hk
  · interval_cases k <;> decide
  · rw [List.getD_eq_default _ _ (by simpa [statusTable] using hk)]
    decide

theorem notC_fixtext1 (s : HudState) : 'C' ∉ (fixtext1 s).data := by
  unfold fixtext1
  dsimp only
  split
  · refine notC_append (notC_append (notC_append ?_ (by decide)) (notC_natStr _)) (by decide)
    split
    · exact notC_statusText _
    · decide
  · split
    · decide
    · decide

/-- C10: the CEP line is appended only inside the known-position block; with
latitude or longitude unknown the fix text contains no `CEP` substring at
all, even when the stored TPV report carries `eph`. -/
theorem c10_cep_needs_position (s : HudState) (tpv : TPVReport)
    (_htpv : s.last_tpv = some tpv) (_heph : tpv.eph.isSome = true)
    (hpos : s.latitude = none ∨ s.longitude = none) :
    strContains (mkFixtext s) ("CEP") = false := by
  have hcep : cepSeg s = "" := by
    unfold cepSeg
    rcases hlat : s.latitude with _ | lat <;> rcases hlon : s.longitude with _ | lon <;>
      first
        | rfl
        | (rcases hpos with h | h <;> simp_all)
  have h1 : 'C' ∉ (mkFixtext s).data := by
    unfold mkFixtext
    rw [hcep]
    exact notC_append (notC_append (notC_fixtext1 s) (notC_skySeg s)) (by decide)
  unfold strContains
  exact containsSub_eq_false_of_head_notMem 'C' _ _ h1

/-- Witness for C10: `cStateEph` stores a TPV report with `eph = 5` but no
position, and its fix text has no CEP line. -/
theorem c10_cep_needs_position_witness :
    strContains (mkFixtext cStateEph) ("CEP") = false :=
  c10_cep_needs_position cStateEph cTpvEph rfl rfl (Or.inl rfl)

theorem strContains_append_left (a b needle : String) (h : strContains a needle = true) :
    strContains (a ++ b) needle = true := by
  unfold strContains at h ⊢
  rw [strData_append]
  exact containsSub_append_left _ _ _ h

theorem strContains_append_right (a b needle : String) (h : strContains b needle = true) :
    strContains (a ++ b) needle = true := by
  unfold strContains at h ⊢
  rw [strData_append]
  exact containsSub_append_right _ _ _ h

/-- Counterexample for C2 as stated: a skyview whose aggregated `all_snr` is
non-empty but which lacks `uSat` produces a fix text with no `All SNR` line —
the whole satellite block (SNR lines included) is gated on both visibility
counts being present. -/
theorem c2_counterexample :
    all_snr cSkyNoUsat.satellites ≠ []
    ∧ cStateNoUsat.skyview = some cSkyNoUsat
    ∧ cSkyNoUsat.uSat = none
    ∧ mkFixtext cStateNoUsat = "Unknown fix"
    ∧ strContains (mkFixtext cStateNoUsat) ("All SNR") = false := by
  refine ⟨?_, rfl, rfl, ?_, ?_⟩ <;> decide

/-- C2 (amended): the fix-text steps are independently conditional only
inside the satellite block, which is entered exactly when the skyview is
present and carries both `uSat` and `nSat`; under that gate, a non-empty
`all_snr` yields an `All SNR` line, a non-empty `used_snr` yields a
`Used SNR` line, and a constellation with used satellites yields the
breakdown line.  When `uSat` or `nSat` is absent the whole block — SNR lines
included — is omitted. -/
theorem c2_sky_gate (s : HudState) (sky : SkyReport) (u n : Nat)
    (hsky : s.skyview = some sky) (hu : sky.uSat = some u) (hn : sky.nSat = some n) :
    ((aggregate sky.satellites).sigstrength ≠ [] →
        strContains (mkFixtext s) ("All SNR") = true)
    ∧ ((aggregate sky.satellites).usedsigstrength ≠ [] →
        strContains (mkFixtext s) ("Used SNR") = true)
    ∧ ((∃ pr ∈ (aggregate sky.satellites).ucount, 0 < pr.2) →
        strContains (mkFixtext s) ("<span font=\"12\">") = true) := by
  have hseg : skySeg s
      = ", " ++ natStr u ++ "/" ++ natStr n ++ " SVs" ++
          svSeg (aggregate sky.satellites).ucount ++
          snrSeg ("All") (aggregate sky.satellites).sigstrength ++
          snrSeg ("Used") (aggregate sky.satellites).usedsigstrength := by
    unfold skySeg
    rw [hsky]
    dsimp only
    rw [hu, hn]
  have into_sky : ∀ needle : String, strContains (skySeg s) needle = true →
      strContains (mkFixtext s) needle = true := by
    intro needle h
    unfold mkFixtext
    exact strContains_append_left _ _ _ (strContains_append_right _ _ _ h)
  refine ⟨?_, ?_, ?_⟩
  · intro hne
    apply into_sky
    rw [hseg]
    apply strContains_append_left
    apply strContains_append_right
    rcases hsig : (aggregate sky.satellites).sigstrength with _ | ⟨q, rest⟩
    · exact absurd hsig hne
    · show strContains ("\n<span font=\"10\">" ++ "All" ++ " SNR: " ++
          fmtF 0 (listMin ((q :: rest).map Prod.snd)) ++ "–" ++
          fmtF 0 (listMax ((q :: rest).map Prod.snd)) ++
          snrStats ((q :: rest).map Prod.snd) ++ "</span>") ("All SNR") = true
      apply strContains_append_left
      apply strContains_append_left
      apply strContains_append_left
      apply strContains_append_left
      apply strContains_append_left
      decide
  · intro hne
    apply into_sky
    rw [hseg]
    apply strContains_append_right
    rcases hsig : (aggregate sky.satellites).usedsigstrength with _ | ⟨q, rest⟩
    · exact absurd hsig hne
    · show strContains ("\n<span font=\"10\">" ++ "Used" ++ " SNR: " ++
          fmtF 0 (listMin ((q :: rest).map Prod.snd)) ++ "–" ++
          fmtF 0 (listMax ((q :: rest).map Prod.snd)) ++
          snrStats ((q :: rest).map Prod.snd) ++ "</span>") ("Used SNR") = true
      apply strContains_append_left
      apply strContains_append_left
      apply strContains_append_left
      apply strContains_append_left
      apply strContains_append_left
      decide
  · intro hbr
    apply into_sky
    rw [hseg]
    apply strContains_append_left
    apply strContains_append_left
    apply strContains_append_right
    obtain ⟨pr, hmem, hpos⟩ := hbr
    have hfil : (aggregate sky.satellites).ucount.filter (fun p => 0 < p.2) ≠ [] := by
      intro hnil
      exact absurd hpos (by simpa using (List.filter_eq_nil_iff.mp hnil) pr hmem)
    have hmap : ((aggregate sky.satellites).ucount.filter (fun p => 0 < p.2)).map svEntry
        ≠ [] := by
      simpa using hfil
    obtain ⟨z, zs, hz⟩ := List.exists_cons_of_ne_nil hmap
    unfold svSeg
    dsimp only
    rw [hz]
    apply strContains_append_left
    apply strContains_append_left
    decide

/-- Witness for C2: the test skyview (7/12 satellites, three entries with
signal strengths, two constellations in use) produces all three lines. -/
theorem c2_sky_gate_witness :
    strContains (mkFixtext cStateSky) ("All SNR") = true
    ∧ strContains (mkFixtext cStateSky) ("Used SNR") = true
    ∧ strContains (mkFixtext cStateSky) ("<span font=\"12\">") = true :=
  ⟨(c2_sky_gate cStateSky cSkyFull 7 12 rfl rfl rfl).1 (by decide),
   (c2_sky_gate cStateSky cSkyFull 7 12 rfl rfl rfl).2.1 (by decide),
   (c2_sky_gate cStateSky cSkyFull 7 12 rfl rfl rfl).2.2 (by decide)⟩

/-! ### Helper lemmas about the dictionary model and the satellite loop -/

theorem dictLookup_dictSet {α : Type} (l : List (Nat × α)) (k k' : Nat) (v : α) :
    dictLookup (dictSet l k v) k' = if k = k' then some v else dictLookup l k' := by
  induction l with
  | nil => simp [dictSet, dictLookup]
  | cons p rest ih =>
      obtain ⟨a, b⟩ := p
      unfold dictSet
      by_cases hak : a = k
      · subst hak
        rw [if_pos rfl]
        unfold dictLookup
        by_cases hk' : a = k' <;> simp [hk']
      · rw [if_neg hak]
        unfold dictLookup
        by_cases hak' : a = k'
        · have hkk' : ¬k = k' := fun h => hak (by rw [hak', h])
          simp [hak', hkk']
        · simp [hak', ih]

theorem aggStep_sigstrength (a : Agg) (e : SatEntry) (p : Nat) :
    dictLookup (aggStep a e).sigstrength p
      = if e.PRN = p ∧ e.ss.isSome ∧ e.gnssid.isSome then e.ss
        else dictLookup a.sigstrength p := by
  obtain ⟨g, prn, us, ss⟩ := e
  by_cases hp : prn = p <;>
    cases g <;> cases ss <;> cases us <;> simp [aggStep, dictLookup_dictSet, hp]

theorem aggStep_usedsigstrength (a : Agg) (e : SatEntry) (p : Nat) :
    dictLookup (aggStep a e).usedsigstrength p
      = if e.PRN = p ∧ e.ss.isSome ∧ e.gnssid.isSome ∧ e.used = true then e.ss
        else dictLookup a.usedsigstrength p := by
  obtain ⟨g, prn, us, ss⟩ := e
  by_cases hp : prn = p <;>
    cases g <;> cases ss <;> cases us <;> simp [aggStep, dictLookup_dictSet, hp]

theorem foldl_sigstrength (sats : List SatEntry) : ∀ (a : Agg) (p : Nat),
    dictLookup (sats.foldl aggStep a).sigstrength p
      = (sats.reverse.find?
            fun e => decide (e.PRN = p) && e.ss.isSome && e.gnssid.isSome).elim
          (dictLookup a.sigstrength p) SatEntry.ss := by
  induction sats with
  | nil => intro a p; rfl
  | cons e rest ih =>
      intro a p
      rw [List.foldl_cons, ih, List.reverse_cons, List.find?_append]
      cases hf : rest.reverse.find?
          (fun e => decide (e.PRN = p) && e.ss.isSome && e.gnssid.isSome) with
      | some e' => simp
      | none =>
          simp only [Option.none_or]
          rw [aggStep_sigstrength]
          by_cases hc : e.PRN = p ∧ e.ss.isSome ∧ e.gnssid.isSome
          · have hb : (decide (e.PRN = p) && e.ss.isSome && e.gnssid.isSome) = true := by
              simp [hc.1, hc.2.1, hc.2.2]
            simp [List.find?_cons, hb, if_pos hc]
          · have hb : (decide (e.PRN = p) && e.ss.isSome && e.gnssid.isSome) = false := by
              rcases Decidable.not_and_iff_or_not.mp hc with h | h
              · simp [h]
              · rcases Decidable.not_and_iff_or_not.mp h with h | h <;> simp [h]
            simp [List.find?_cons, hb, if_neg hc]

theorem foldl_usedsigstrength (sats : List SatEntry) : ∀ (a : Agg) (p : Nat),
    dictLookup (sats.foldl aggStep a).usedsigstrength p
      = (sats.reverse.find?
            fun e => decide (e.PRN = p) && e.ss.isSome && e.gnssid.isSome && e.used).elim
          (dictLookup a.usedsigstrength p) SatEntry.ss := by
  induction sats with
  | nil => intro a p; rfl
  | cons e rest ih =>
      intro a p
      rw [List.foldl_cons, ih, List.reverse_cons, List.find?_append]
      cases hf : rest.reverse.find?
          (fun e => decide (e.PRN = p) && e.ss.isSome && e.gnssid.isSome && e.used) with
      | some e' => simp
      | none =>
          simp only [Option.none_or]
          rw [aggStep_usedsigstrength]
          by_cases hc : e.PRN = p ∧ e.ss.isSome ∧ e.gnssid.isSome ∧ e.used = true
          · have hb : (decide (e.PRN = p) && e.ss.isSome && e.gnssid.isSome && e.used) = true := by
              simp [hc.1, hc.2.1, hc.2.2.1, hc.2.2.2]
            simp [List.find?_cons, hb, if_pos hc]
          · have hb : (decide (e.PRN = p) && e.ss.isSome && e.gnssid.isSome && e.used)
                = false := by
              rcases Decidable.not_and_iff_or_not.mp hc with h | h
              · simp [h]
              · rcases Decidable.not_and_iff_or_not.mp h with h | h
                · simp [h]
                · rcases Decidable.not_and_iff_or_not.mp h with h | h <;> simp [h]
            simp [List.find?_cons, hb, if_neg hc]

/-- Counterexample for C3 as stated: a satellite entry with `ss` present but
no `gnssid` contributes nothing to `all_snr` — the loop skips entries without
a constellation id wholesale. -/
theorem c3_counterexample :
    cSatNoGnss.ss = some 33
    ∧ cSatNoGnss.used = true
    ∧ all_snr [cSatNoGnss] = []
    ∧ dictLookup (all_snr [cSatNoGnss]) 7 = none :=
  ⟨rfl, rfl, rfl, rfl⟩

/-- C3 (amended): `all_snr` maps PRN `p` to the `ss` of the *last* satellite
entry with that PRN among the entries that carry **both** a `gnssid` and an
`ss` (entries without `gnssid` are skipped wholesale, whatever their `used`
flag); `used_snr` is the same restricted to entries whose `used` flag is
true.  In particular `all_snr` holds an entry for `p` exactly when some
gnssid-carrying entry with PRN `p` has `ss` present, and `used_snr` exactly
when such an entry is also used. -/
theorem c3_all_snr_keys (sats : List SatEntry) (p : Nat) :
    dictLookup (all_snr sats) p
      = (sats.reverse.find?
            fun e => decide (e.PRN = p) && e.ss.isSome && e.gnssid.isSome).elim
          none SatEntry.ss
    ∧ dictLookup (used_snr sats) p
      = (sats.reverse.find?
            fun e => decide (e.PRN = p) && e.ss.isSome && e.gnssid.isSome && e.used).elim
          none SatEntry.ss
    ∧ ((dictLookup (all_snr sats) p).isSome
        ↔ ∃ e ∈ sats, e.PRN = p ∧ e.ss.isSome ∧ e.gnssid.isSome)
    ∧ ((dictLookup (used_snr sats) p).isSome
        ↔ ∃ e ∈ sats, e.PRN = p ∧ e.ss.isSome ∧ e.gnssid.isSome ∧ e.used = true) := by
  have h1 := foldl_sigstrength sats ⟨[], [], [], []⟩ p
  have h2 := foldl_usedsigstrength sats ⟨[], [], [], []⟩ p
  refine ⟨h1, h2, ?_, ?_⟩
  · rw [all_snr, aggregate, h1]
    cases hf : sats.reverse.find?
        (fun e => decide (e.PRN = p) && e.ss.isSome && e.gnssid.isSome) with
    | none =>
        rw [List.find?_eq_none] at hf
        simp only [Option.elim_none,
          show dictLookup (Agg.mk [] [] [] []).sigstrength p = none from rfl,
          Option.isSome_none, Bool.false_eq_true, false_iff]
        rintro ⟨e, he, hp, hss, hg⟩
        exact absurd (by simp [hp, hss, hg]) (hf e (List.mem_reverse.mpr he))
    | some e =>
        have hpr := List.find?_some hf
        have hmem := List.mem_reverse.mp (List.mem_of_find?_eq_some hf)
        simp only [Bool.and_eq_true, decide_eq_true_eq] at hpr
        obtain ⟨⟨hp, hss⟩, hg⟩ := hpr
        constructor
        · exact fun _ => ⟨e, hmem, hp, hss, hg⟩
        · exact fun _ => by simpa using hss
  · rw [used_snr, aggregate, h2]
    cases hf : sats.reverse.find?
        (fun e => decide (e.PRN = p) && e.ss.isSome && e.gnssid.isSome && e.used) with
    | none =>
        rw [List.find?_eq_none] at hf
        simp only [Option.elim_none,
          show dictLookup (Agg.mk [] [] [] []).usedsigstrength p = none from rfl,
          Option.isSome_none, Bool.false_eq_true, false_iff]
        rintro ⟨e, he, hp, hss, hg, hu⟩
        exact absurd (by simp [hp, hss, hg, hu]) (hf e (List.mem_reverse.mpr he))
    | some e =>
        have hpr := List.find?_some hf
        have hmem := List.mem_reverse.mp (List.mem_of_find?_eq_some hf)
        simp only [Bool.and_eq_true, decide_eq_true_eq] at hpr
        obtain ⟨⟨⟨hp, hss⟩, hg⟩, hu⟩ := hpr
        constructor
        · exact fun _ => ⟨e, hmem, hp, hss, hg, hu⟩
        · exact fun _ => by simpa using hss

end Gpshud
